import Mathlib

/-!
Verification of the falcon-marshmallow middleware core
(`src/falcon_marshmallow/middleware.py`) against its specification.

The embedding is shallow: Python runtime values that can appear in a
request context or pass through the JSON codec are modelled by `Val`;
the per-request mutable state (the `req.context` dictionary plus the
single-read bounded stream) is modelled by `ReqState` and threaded
explicitly; raising an HTTP error or a `TypeError` is modelled by
returning `some e : Option Err`.  External collaborators (the
`simplejson` codec, marshmallow schema objects, the vendored
`mimeparse.quality` function) are modelled at their interface boundary,
as the source injects or wraps them: the codec is a record of functions
(it is the `json_module` constructor parameter), a schema is a record
with `load` and `dump`, and `mimeparse.quality` is a function parameter
returning `none` where the real one raises `ValueError`.

The marshmallow-3 branch of the source is embedded (the branch guarded
by `not MARSHMALLOW_2`), which is the branch the specification
describes for exception handling during `load` and `dump`.
-/

namespace FalconMarshmallow

/-- Python runtime values as far as this middleware observes them:
JSON-style data, plus byte strings (request bodies), Python sets and
exception objects (both of which the JSON codec cannot encode). -/
inductive Val where
  | null
  | bool (b : Bool)
  | num (n : Int)
  | str (s : String)
  | arr (elems : List Val)
  | obj (fields : List (String × Val))
  | bytes (bs : List Nat)
  | pyset (elems : List Val)
  | excObj (msg : String)

/-- The exceptions the middleware catches from the codec decode path:
`UnicodeDecodeError` and `json.JSONDecodeError` (a `ValueError`). -/
inductive JsonErr where
  | unicodeDecodeError
  | jsonDecodeError
deriving DecidableEq

/-- The injected `json_module` constructor parameter, at its interface
boundary: `loads` either returns a value or raises one of the two
decode errors; `dumps` returns `none` where the real codec raises
`TypeError` on a value that is not JSON-encodable. -/
structure JsonModule where
  loads : Val → Except JsonErr Val
  dumps : Val → Option String

/-- Outcome of `schema.load` in marshmallow 3: a value, a raised
`ValidationError` carrying its `messages`, or any other raised
exception (carried as the exception object itself, which is how the
source then uses it). -/
inductive LoadResult where
  | ok (v : Val)
  | validationError (messages : Val)
  | otherExc (e : Val)

/-- Outcome of `schema.dumps` in marshmallow 3.  In the other-exception
case the source only ever uses `str(exc)`, so the string suffices. -/
inductive DumpResult where
  | ok (s : String)
  | validationError (messages : Val)
  | otherExc (msg : String)

/-- An instantiated marshmallow `Schema` at its interface boundary. -/
structure SchemaObj where
  load : Val → LoadResult
  dump : Val → DumpResult

/-- A value found under a schema attribute of a resource: either an
instantiated `Schema`, or anything else (for example an uninstantiated
schema class), which fails the `isinstance(sch, Schema)` check. -/
inductive ResAttr where
  | inst (s : SchemaObj)
  | notSchema

/-- A resource is an attribute bag: a partial map from attribute names
to values, `none` standing both for a missing attribute and for an
attribute set to Python `None` (`getattr(resource, name, None)` cannot
tell these apart). -/
abbrev Resource := String → Option ResAttr

/-- The request fields this middleware reads.  The body bytes live in
`ReqState.stream`, since reading them consumes mutable state. -/
structure Request where
  method : String
  client_accepts_json : Bool
  content_type : Option String
  content_length : Option Nat

/-- Mutable per-request state: the `req.context` dictionary, the
unread remainder of `req.bounded_stream`, and a count of transport
reads (for stating that the stream is read at most once). -/
structure ReqState where
  context : String → Option Val
  stream : List Nat
  readCount : Nat

/-- `req.context[k] = v`. -/
def setCtx (st : ReqState) (k : String) (v : Val) : ReqState :=
  { st with context := fun k2 => if k2 = k then some v else st.context k2 }

/-- Module constant `JSON_CONTENT_REQUIRED_METHODS`. -/
def JSON_CONTENT_REQUIRED_METHODS : List String := ["POST", "PUT", "PATCH"]

/-- Module constant `JSON_CONTENT_TYPE`. -/
def JSON_CONTENT_TYPE : String := "application/json"

/-- Module constant `CONTENT_KEY`, the reserved raw-body cache key. -/
def CONTENT_KEY : String := "content"

/-- Read the whole bounded stream and stash it under `CONTENT_KEY`. -/
def stashRead (st : ReqState) : Val × ReqState :=
  (Val.bytes st.stream,
   { context := fun k =>
       if k = CONTENT_KEY then some (Val.bytes st.stream) else st.context k,
     stream := [],
     readCount := st.readCount + 1 })

/-- `get_stashed_content` (middleware.py lines 41 to 58): the body is
read from the transport and cached on first use; `context.get(k)` is
`None` both when the key is absent and when it holds Python `None`, so
both cases trigger the read. -/
def get_stashed_content (st : ReqState) : Val × ReqState :=
  match st.context CONTENT_KEY with
  | none => stashRead st
  | some Val.null => stashRead st
  | some v => (v, st)

/-- Python truthiness on `Val`, as used by `if not content`. -/
def falsy : Val → Bool
  | Val.null => true
  | Val.bool b => !b
  | Val.num n => decide (n = 0)
  | Val.str s => s.isEmpty
  | Val.arr es => es.isEmpty
  | Val.obj fs => fs.isEmpty
  | Val.bytes bs => bs.isEmpty
  | Val.pyset es => es.isEmpty
  | Val.excObj _ => false

/-- Errors raised by the middleware: the five HTTP error classes it
imports, plus the plain Python `TypeError`, which is not an HTTP error
class at all. -/
inductive Err where
  | notAcceptable (description : String)
  | unsupportedMediaType (description : String)
  | badRequest (description : String)
  | unprocessableEntity (description : String)
  | internalServerError (title : String) (description : String)
  | typeError (msg : String)
deriving DecidableEq

/-- Description of the `HTTPNotAcceptable` raised by `JSONEnforcer`. -/
def notAcceptableDesc : String :=
  "This server only supports responses encoded as JSON. Please update " ++
  "your \"Accept\" header to include \"application/json\"."

/-- Description of the `HTTPUnsupportedMediaType` raised by
`JSONEnforcer` (string interpolation of the method name). -/
def unsupportedMediaTypeDesc (method : String) : String :=
  method ++ " requests must have \"application/json\" in their " ++
  "\"Content-Type\" header."

/-- Auxiliary substring test on character lists. -/
def strContainsAux (needle : List Char) : List Char → Bool
  | [] => needle.isEmpty
  | c :: rest => needle.isPrefixOf (c :: rest) || strContainsAux needle rest

/-- Python `needle in hay` on strings. -/
def strContains (hay needle : String) : Bool :=
  strContainsAux needle.data hay.data

/-- `method.lower()`: ASCII lowercasing of the method string. -/
def pyLower (s : String) : String :=
  String.mk (s.data.map Char.toLower)

/-- `JSONEnforcer.__init__` stores `tuple(required_methods)` in
`self._methods`. -/
structure JSONEnforcer where
  methods : List String

/-- `JSONEnforcer.process_request` (middleware.py lines 75 to 108).
Note that the membership test on line 98 consults the module constant
`JSON_CONTENT_REQUIRED_METHODS`, not the stored `self._methods`. -/
def JSONEnforcer.process_request (_e : JSONEnforcer) (req : Request) :
    Option Err :=
  if req.client_accepts_json = false then
    some (Err.notAcceptable notAcceptableDesc)
  else if req.method ∈ JSON_CONTENT_REQUIRED_METHODS then
    match req.content_type with
    | none =>
        some (Err.unsupportedMediaType (unsupportedMediaTypeDesc req.method))
    | some ct =>
        if strContains ct JSON_CONTENT_TYPE then none
        else
          some (Err.unsupportedMediaType (unsupportedMediaTypeDesc req.method))
  else none

/-- Description of the `HTTPBadRequest` raised by
`EmptyRequestDropper`. -/
def emptyBodyDesc : String :=
  "Empty response body. A valid JSON document is required."

/-- `EmptyRequestDropper.process_request` (middleware.py lines 114 to
139): return immediately for absent or zero content length, otherwise
obtain the stashed content and reject falsy (empty) bodies. -/
def EmptyRequestDropper.process_request (req : Request) (st : ReqState) :
    Option Err × ReqState :=
  if req.content_length = none ∨ req.content_length = some 0 then
    (none, st)
  else if falsy (get_stashed_content st).1 then
    (some (Err.badRequest emptyBodyDesc), (get_stashed_content st).2)
  else (none, (get_stashed_content st).2)

/-- `Marshmallow.__init__` configuration (middleware.py lines 147 to
207), with the source defaults as field defaults.  `json` has no
meaningful default here because the codec is external; concrete
instances supply one. -/
structure Marshmallow where
  req_key : String := "json"
  resp_key : String := "result"
  force_json : Bool := true
  json : JsonModule
  expected_content_type : String := JSON_CONTENT_TYPE
  handle_unexpected_content_types : Bool := false

/-- `Marshmallow._get_specific_schema` (middleware.py lines 209 to
249): try `{method.lower()}_{msg_type}_schema`, then
`{method.lower()}_schema`. -/
def Marshmallow.get_specific_schema (resource : Resource)
    (method msg_type : String) : Option ResAttr :=
  match resource (pyLower method ++ "_" ++ msg_type ++ "_schema") with
  | some s => some s
  | none => resource (pyLower method ++ "_schema")

/-- `Marshmallow._get_schema` (middleware.py lines 251 to 286): a
specific schema if any, else the generic `schema` attribute. -/
def Marshmallow.get_schema (resource : Resource)
    (method msg_type : String) : Option ResAttr :=
  match Marshmallow.get_specific_schema resource method msg_type with
  | some s => some s
  | none => resource "schema"

/-- `Marshmallow._content_is_expected_type` (middleware.py lines 288
to 315).  `mq` stands for the vendored `mimeparse.quality`, returning
`none` where the real function raises `ValueError` on a malformed
content type; that case is caught and mapped to `false`. -/
def Marshmallow.content_is_expected_type (mw : Marshmallow)
    (mq : String → String → Option Rat) (content_type : Option String) :
    Bool :=
  if content_type = some mw.expected_content_type ∨ content_type = none then
    true
  else
    match content_type with
    | none => true
    | some ct =>
        match mq ct mw.expected_content_type with
        | none => false
        | some q => decide (q ≠ 0)

/-- Message of the `TypeError` raised for a resolved schema attribute
that is not an instantiated `Schema` (lines 368 and 456). -/
def schemaTypeErrorMsg : String :=
  "The schema and <method>_schema properties of a resource " ++
  "must be instantiated Marshmallow schemas."

/-- Message of the `TypeError` the codec raises when asked to encode a
value that is not JSON-encodable (for example an exception object); a
`dumps` call inside an exception handler that raises this way replaces
the error being constructed. -/
def dumpsTypeErrorMsg : String :=
  "Object is not JSON serializable"

/-- Description of the `HTTPBadRequest` of the generic-JSON inbound
fallback (lines 410 to 416). -/
def forceJsonBadRequestDesc : String :=
  "Could not decode the request body, either because " ++
  "it was not valid JSON or because it was not encoded " ++
  "as UTF-8."

/-- Generic description of the `HTTPInternalServerError` of the
generic-JSON outbound fallback (lines 495 to 502); a fixed string that
mentions neither the value nor any exception detail. -/
def genericSerializeDesc : String :=
  "The server attempted to serialize an object that " ++
  "cannot be serialized. This is likely a server-side " ++
  "bug."

/-- Title shared by every `HTTPInternalServerError` of the outbound
path. -/
def serializeErrTitle : String := "Could not serialize response"

/-- `Marshmallow.process_resource` (middleware.py lines 317 to 416),
marshmallow-3 branch.  Returns the raised error, if any, and the
resulting request state. -/
def Marshmallow.process_resource (mw : Marshmallow)
    (mq : String → String → Option Rat) (req : Request)
    (resource : Resource) (st : ReqState) : Option Err × ReqState :=
  if req.content_length = none ∨ req.content_length = some 0 then
    (none, st)
  else if mw.handle_unexpected_content_types = false ∧
      mw.content_is_expected_type mq req.content_type = false then
    (none, st)
  else
    match Marshmallow.get_schema resource req.method "request" with
    | some ResAttr.notSchema => (some (Err.typeError schemaTypeErrorMsg), st)
    | some (ResAttr.inst sch) =>
        match mw.json.loads (get_stashed_content st).1 with
        | Except.error JsonErr.unicodeDecodeError =>
            (some (Err.badRequest "Body was not encoded as UTF-8"),
             (get_stashed_content st).2)
        | Except.error JsonErr.jsonDecodeError =>
            (some (Err.badRequest "Request must be valid JSON"),
             (get_stashed_content st).2)
        | Except.ok parsed =>
            match sch.load parsed with
            | LoadResult.ok data =>
                (none, setCtx (get_stashed_content st).2 mw.req_key data)
            | LoadResult.validationError msgs =>
                match mw.json.dumps msgs with
                | some d =>
                    (some (Err.unprocessableEntity d),
                     (get_stashed_content st).2)
                | none =>
                    (some (Err.typeError dumpsTypeErrorMsg),
                     (get_stashed_content st).2)
            | LoadResult.otherExc e =>
                match mw.json.dumps (Val.obj [("error", e)]) with
                | some d =>
                    (some (Err.unprocessableEntity d),
                     (get_stashed_content st).2)
                | none =>
                    (some (Err.typeError dumpsTypeErrorMsg),
                     (get_stashed_content st).2)
    | none =>
        if mw.force_json = true then
          match mw.json.loads (get_stashed_content st).1 with
          | Except.ok v =>
              (none, setCtx (get_stashed_content st).2 mw.req_key v)
          | Except.error _ =>
              (some (Err.badRequest forceJsonBadRequestDesc),
               (get_stashed_content st).2)
        else (none, st)

/-- `Marshmallow.process_response` (middleware.py lines 418 to 502),
marshmallow-3 branch.  `respBody` models `resp.body` (initially unset);
the function returns the raised error, if any, and the new body. -/
def Marshmallow.process_response (mw : Marshmallow) (req : Request)
    (resource : Resource) (st : ReqState) (respBody : Option String) :
    Option Err × Option String :=
  match st.context mw.resp_key with
  | none => (none, respBody)
  | some result =>
      match Marshmallow.get_schema resource req.method "response" with
      | some ResAttr.notSchema =>
          (some (Err.typeError schemaTypeErrorMsg), respBody)
      | some (ResAttr.inst sch) =>
          match sch.dump result with
          | DumpResult.ok data => (none, some data)
          | DumpResult.validationError msgs =>
              match mw.json.dumps msgs with
              | some d =>
                  (some (Err.internalServerError serializeErrTitle d),
                   respBody)
              | none => (some (Err.typeError dumpsTypeErrorMsg), respBody)
          | DumpResult.otherExc msg =>
              match mw.json.dumps (Val.obj [("error", Val.str msg)]) with
              | some d =>
                  (some (Err.internalServerError serializeErrTitle d),
                   respBody)
              | none => (some (Err.typeError dumpsTypeErrorMsg), respBody)
      | none =>
          if mw.force_json = true then
            match mw.json.dumps result with
            | some s => (none, some s)
            | none =>
                (some (Err.internalServerError serializeErrTitle
                        genericSerializeDesc),
                 respBody)
          else (none, respBody)

/-- Fuel-bounded test for JSON-encodability: containers are encodable
when their elements are; byte strings, sets and exception objects are
not.  Fuel keeps the recursion structural so that concrete instances
evaluate in the kernel. -/
def encodableFuel : Nat → Val → Bool
  | 0, _ => false
  | n + 1, v =>
      match v with
      | Val.arr es => es.all (encodableFuel n)
      | Val.obj fs => fs.all (fun kv => encodableFuel n kv.2)
      | Val.bytes _ => false
      | Val.pyset _ => false
      | Val.excObj _ => false
      | _ => true

/-- Fuel-bounded JSON rendering of encodable values. -/
def renderFuel : Nat → Val → String
  | 0, _ => ""
  | n + 1, v =>
      match v with
      | Val.null => "null"
      | Val.bool true => "true"
      | Val.bool false => "false"
      | Val.num i => toString i
      | Val.str s => "\"" ++ s ++ "\""
      | Val.arr es =>
          "[" ++ String.intercalate ", " (es.map (renderFuel n)) ++ "]"
      | Val.obj fs =>
          "\x7b" ++
          String.intercalate ", "
            (fs.map (fun kv => "\"" ++ kv.1 ++ "\": " ++ renderFuel n kv.2))
          ++ "\x7d"
      | Val.bytes _ => ""
      | Val.pyset _ => ""
      | Val.excObj _ => ""

/-- A concrete instance of the external codec interface, used to
evaluate the theorems on concrete inputs.  Its encoder follows the
codec contract (encoding raises `TypeError`, that is returns `none`,
exactly on values that are not JSON-encodable, which includes
exception objects and sets); its decoder recognises the body bytes of
the empty JSON object, which is all the concrete evaluations need. -/
def simplejsonModel : JsonModule where
  loads := fun v =>
    match v with
    | Val.bytes [123, 125] => Except.ok (Val.obj [])
    | _ => Except.error JsonErr.jsonDecodeError
  dumps := fun v =>
    if encodableFuel 100 v then some (renderFuel 100 v) else none

/-- A `Marshmallow` middleware with all defaults, over the concrete
codec instance. -/
def mwDefault : Marshmallow := { json := simplejsonModel }

/-- A schema whose `load` raises an exception that is not a
`ValidationError`. -/
def raisingLoadSchema : SchemaObj where
  load := fun _ => LoadResult.otherExc (Val.excObj "boom")
  dump := fun _ => DumpResult.ok ""

/-- A resource carrying `raisingLoadSchema` under its generic `schema`
attribute. -/
def resourceRaisingLoad : Resource := fun name =>
  if name = "schema" then some (ResAttr.inst raisingLoadSchema) else none

/-- A mime-quality function that is never consulted on the evaluated
paths (the content types there match exactly). -/
def mqUnused : String → String → Option Rat := fun _ _ => none

/-- A POST request declaring JSON content, body length 2. -/
def reqPostJson : Request where
  method := "POST"
  client_accepts_json := true
  content_type := some "application/json"
  content_length := some 2

/-- Fresh request state whose stream holds the body bytes of the empty
JSON object. -/
def stEmptyCtx : ReqState where
  context := fun _ => none
  stream := [123, 125]
  readCount := 0

/-- C1: the required-methods set given to the `JSONEnforcer`
constructor is ignored by `process_request`, which tests membership in
the module constant instead of the stored `self._methods`.  For an
enforcer constructed with the set containing only GET, a GET request
with non-JSON content type raises nothing, and a POST request with the
same content type still raises the unsupported-media-type error,
contradicting the claim in both directions. -/
theorem c1_enforcer_ignores_configured_methods :
    JSONEnforcer.process_request ⟨["GET"]⟩
      { method := "GET", client_accepts_json := true,
        content_type := some "text/plain", content_length := some 5 }
      = none ∧
    JSONEnforcer.process_request ⟨["GET"]⟩
      { method := "POST", client_accepts_json := true,
        content_type := some "text/plain", content_length := some 5 }
      = some (Err.unsupportedMediaType (unsupportedMediaTypeDesc "POST")) :=
  ⟨rfl, rfl⟩

/-- C2: when `schema.load` raises an exception that is not a
`ValidationError`, the except clause builds
`dumps(\x7b"error": exc\x7d)` with the exception object itself rather
than its string form; the default codec cannot encode an exception
object, so the `dumps` call raises `TypeError` and that `TypeError`
replaces the intended unprocessable-entity error.  Evaluated on the
default middleware, a matching JSON request and a schema whose load
raises: the outcome is the `TypeError`, not an unprocessable-entity
error. -/
theorem c2_load_exception_dumps_raises :
    (Marshmallow.process_resource mwDefault mqUnused reqPostJson
        resourceRaisingLoad stEmptyCtx).1
      = some (Err.typeError dumpsTypeErrorMsg) ∧
    ∀ d, (Marshmallow.process_resource mwDefault mqUnused reqPostJson
        resourceRaisingLoad stEmptyCtx).1 ≠ some (Err.unprocessableEntity d) := by
  refine ⟨rfl, ?_⟩
  intro d hd
  have he : (Marshmallow.process_resource mwDefault mqUnused reqPostJson
      resourceRaisingLoad stEmptyCtx).1 = some (Err.typeError dumpsTypeErrorMsg) := rfl
  rw [he] at hd
  simp at hd

/-- C3: schema resolution tries the method-and-direction-specific
attribute, then the method-specific attribute, then the generic
`schema` attribute, and yields `none` when all three are unset; the
method is lowercased before lookup, so any two casings of the same
method resolve identically.  The lookup is a pure function of the
resource attribute map. -/
theorem c3_schema_resolution_precedence (resource : Resource)
    (m m2 d : String) (hm : pyLower m = pyLower m2) :
    (∀ s, resource (pyLower m ++ "_" ++ d ++ "_schema") = some s →
        Marshmallow.get_schema resource m d = some s) ∧
    (resource (pyLower m ++ "_" ++ d ++ "_schema") = none →
      ∀ s, resource (pyLower m ++ "_schema") = some s →
        Marshmallow.get_schema resource m d = some s) ∧
    (resource (pyLower m ++ "_" ++ d ++ "_schema") = none →
      resource (pyLower m ++ "_schema") = none →
        Marshmallow.get_schema resource m d = resource "schema") ∧
    Marshmallow.get_schema resource m d =
      Marshmallow.get_schema resource m2 d := by
  refine ⟨?_, ?_, ?_, ?_⟩
  · intro s hs
    unfold Marshmallow.get_schema Marshmallow.get_specific_schema
    rw [hs]
  · intro h1 s hs
    unfold Marshmallow.get_schema Marshmallow.get_specific_schema
    rw [h1, hs]
  · intro h1 h2
    unfold Marshmallow.get_schema Marshmallow.get_specific_schema
    rw [h1, h2]
  · unfold Marshmallow.get_schema Marshmallow.get_specific_schema
    rw [hm]

/-- A resource with only the GET-request-specific schema attribute
set. -/
def resourceC3 : Resource := fun name =>
  if name = "get_request_schema" then some ResAttr.notSchema else none

/-- Witness for C3 at a concrete resource: the method-and-direction
attribute wins, and the uppercase and lowercase method spellings
resolve identically. -/
theorem c3_schema_resolution_precedence_witness :
    pyLower "GET" = pyLower "get" ∧
    Marshmallow.get_schema resourceC3 "GET" "request" = some ResAttr.notSchema ∧
    Marshmallow.get_schema resourceC3 "GET" "request" =
      Marshmallow.get_schema resourceC3 "get" "request" := by
  refine ⟨rfl, ?_, ?_⟩
  · exact (c3_schema_resolution_precedence resourceC3 "GET" "get" "request"
      rfl).1 ResAttr.notSchema rfl
  · exact (c3_schema_resolution_precedence resourceC3 "GET" "get" "request"
      rfl).2.2.2

/-- C4: when the reserved cache key is not yet present, the first call
to `get_stashed_content` reads the whole stream, returns it, stores it
under the cache key and performs exactly one transport read; a second
call then returns the identical value with a completely unchanged
state, so no second read happens and the key is written at most
once. -/
theorem c4_stash_read_once (st : ReqState)
    (h : st.context CONTENT_KEY = none) :
    (get_stashed_content st).1 = Val.bytes st.stream ∧
    (get_stashed_content st).2.context CONTENT_KEY
      = some (Val.bytes st.stream) ∧
    (get_stashed_content st).2.readCount = st.readCount + 1 ∧
    get_stashed_content (get_stashed_content st).2 =
      ((get_stashed_content st).1, (get_stashed_content st).2) := by
  have h1 : get_stashed_content st = stashRead st := by
    unfold get_stashed_content
    rw [h]
  have h2 : (stashRead st).2.context CONTENT_KEY
      = some (Val.bytes st.stream) := by
    simp [stashRead]
  have h3 : get_stashed_content (stashRead st).2
      = ((stashRead st).1, (stashRead st).2) := by
    unfold get_stashed_content
    rw [h2]
    rfl
  rw [h1]
  exact ⟨rfl, h2, rfl, h3⟩

/-- Fresh request state with a two-byte stream and empty context. -/
def stC4 : ReqState where
  context := fun _ => none
  stream := [1, 2]
  readCount := 0

/-- Witness for C4 on a concrete fresh state. -/
theorem c4_stash_read_once_witness :
    stC4.context CONTENT_KEY = none ∧
    (get_stashed_content stC4).2.readCount = stC4.readCount + 1 ∧
    get_stashed_content (get_stashed_content stC4).2 =
      ((get_stashed_content stC4).1, (get_stashed_content stC4).2) := by
  refine ⟨rfl, ?_, ?_⟩
  · exact (c4_stash_read_once stC4 rfl).2.2.1
  · exact (c4_stash_read_once stC4 rfl).2.2.2

/-- Helper: obtaining the stashed content changes no context key other
than the reserved cache key. -/
theorem stash_context_ne (st : ReqState) (k : String)
    (hk : ¬k = CONTENT_KEY) :
    (get_stashed_content st).2.context k = st.context k := by
  cases hv : st.context CONTENT_KEY with
  | none => simp [get_stashed_content, stashRead, hv, hk]
  | some v => cases v <;> simp [get_stashed_content, stashRead, hv, hk]

/-- Helper: on the two skip paths of the inbound transcoder (no or
zero declared length; mismatched content type under the default
configuration) nothing is raised and the state is returned
untouched. -/
theorem process_resource_skip (mw : Marshmallow)
    (mq : String → String → Option Rat) (req : Request)
    (resource : Resource) (st : ReqState)
    (h : req.content_length = none ∨ req.content_length = some 0 ∨
      (mw.handle_unexpected_content_types = false ∧
       mw.content_is_expected_type mq req.content_type = false)) :
    Marshmallow.process_resource mw mq req resource st = (none, st) := by
  unfold Marshmallow.process_resource
  rcases h with h | h | h
  · rw [if_pos (Or.inl h)]
  · rw [if_pos (Or.inr h)]
  · by_cases hl : req.content_length = none ∨ req.content_length = some 0
    · rw [if_pos hl]
    · rw [if_neg hl, if_pos h]

/-- C5: for absent or zero declared content length the dropper returns
with the state untouched (no body read); for a nonzero declared
length it obtains the body through the stash and raises the bad
request error exactly when the obtained bytes are empty. -/
theorem c5_empty_request_dropper (req : Request) (st : ReqState) :
    (req.content_length = none ∨ req.content_length = some 0 →
      EmptyRequestDropper.process_request req st = (none, st)) ∧
    (∀ n bs, req.content_length = some (n + 1) →
      (get_stashed_content st).1 = Val.bytes bs →
      EmptyRequestDropper.process_request req st =
        (if bs = [] then some (Err.badRequest emptyBodyDesc) else none,
         (get_stashed_content st).2)) := by
  constructor
  · intro h
    unfold EmptyRequestDropper.process_request
    rw [if_pos h]
  · intro n bs hl hb
    have hne : ¬(req.content_length = none ∨ req.content_length = some 0) := by
      rw [hl]
      simp
    unfold EmptyRequestDropper.process_request
    rw [if_neg hne, hb]
    by_cases hbs : bs = []
    · subst hbs
      simp [falsy]
    · rw [if_neg hbs]
      have hf : falsy (Val.bytes bs) = false := by
        simp [falsy, hbs]
      rw [hf]
      simp

/-- A request declaring ten bytes of content. -/
def reqC5 : Request where
  method := "POST"
  client_accepts_json := true
  content_type := some "application/json"
  content_length := some 10

/-- Fresh request state whose stream is empty. -/
def stC5 : ReqState where
  context := fun _ => none
  stream := []
  readCount := 0

/-- Witness for C5: declared length ten but an empty actual body is
rejected with the bad request error. -/
theorem c5_empty_request_dropper_witness :
    reqC5.content_length = some (9 + 1) ∧
    (get_stashed_content stC5).1 = Val.bytes [] ∧
    EmptyRequestDropper.process_request reqC5 stC5 =
      (some (Err.badRequest emptyBodyDesc), (get_stashed_content stC5).2) := by
  refine ⟨rfl, rfl, ?_⟩
  have h := (c5_empty_request_dropper reqC5 stC5).2 9 [] rfl rfl
  simpa using h

/-- C6: on the outbound path with a stored result, no resolved schema
and the generic fallback enabled, the stored value is JSON-encoded
into the body when the codec can encode it; when the codec cannot
(encoding raises `TypeError`), the middleware raises the internal
server error whose description is a fixed generic server-side-bug
string, the same for every value, so neither the value nor the
exception detail appears in it. -/
theorem c6_force_json_encode_response (mw : Marshmallow) (req : Request)
    (resource : Resource) (st : ReqState) (respBody : Option String)
    (result : Val)
    (hres : st.context mw.resp_key = some result)
    (hsch : Marshmallow.get_schema resource req.method "response" = none)
    (hforce : mw.force_json = true) :
    (∀ s, mw.json.dumps result = some s →
      Marshmallow.process_response mw req resource st respBody
        = (none, some s)) ∧
    (mw.json.dumps result = none →
      Marshmallow.process_response mw req resource st respBody =
        (some (Err.internalServerError serializeErrTitle genericSerializeDesc),
         respBody)) := by
  constructor
  · intro s hs
    simp [Marshmallow.process_response, hres, hsch, hforce, hs]
  · intro hd
    simp [Marshmallow.process_response, hres, hsch, hforce, hd]

/-- Request state whose context stores a Python set (not
JSON-encodable) under the default outbound key. -/
def stC6 : ReqState where
  context := fun k => if k = "result" then some (Val.pyset [Val.str "foo"]) else none
  stream := []
  readCount := 0

/-- A resource with no attributes at all. -/
def resourceEmpty : Resource := fun _ => none

/-- A GET request with no body. -/
def reqGet : Request where
  method := "GET"
  client_accepts_json := true
  content_type := none
  content_length := none

/-- Witness for C6: a stored set value, no schema, fallback enabled:
the outcome is the internal server error with the fixed generic
description. -/
theorem c6_force_json_encode_response_witness :
    stC6.context mwDefault.resp_key = some (Val.pyset [Val.str "foo"]) ∧
    Marshmallow.get_schema resourceEmpty reqGet.method "response" = none ∧
    mwDefault.force_json = true ∧
    Marshmallow.process_response mwDefault reqGet resourceEmpty stC6 none =
      (some (Err.internalServerError serializeErrTitle genericSerializeDesc),
       none) := by
  refine ⟨rfl, rfl, rfl, ?_⟩
  exact (c6_force_json_encode_response mwDefault reqGet resourceEmpty stC6
    none (Val.pyset [Val.str "foo"]) rfl rfl rfl).2 rfl

/-- C7: when the declared content length is absent or zero, or when
(under the default configuration, which does not handle unexpected
content types) the content type fails the expected-type comparison,
the inbound transcoder raises nothing and returns the request state
untouched: no context key is written (in particular the inbound key
stays absent) and no stream read happens. -/
theorem c7_skip_leaves_state_unchanged (mw : Marshmallow)
    (mq : String → String → Option Rat) (req : Request)
    (resource : Resource) (st : ReqState)
    (h : req.content_length = none ∨ req.content_length = some 0 ∨
      (mw.handle_unexpected_content_types = false ∧
       mw.content_is_expected_type mq req.content_type = false)) :
    Marshmallow.process_resource mw mq req resource st = (none, st) :=
  process_resource_skip mw mq req resource st h

/-- A mime-quality function assigning quality zero, as the real one
does for `text/csv` against `application/json`. -/
def mqZero : String → String → Option Rat := fun _ _ => some 0

/-- A POST request declaring `text/csv` content. -/
def reqCsv : Request where
  method := "POST"
  client_accepts_json := true
  content_type := some "text/csv"
  content_length := some 5

/-- Witness for C7, the mismatched-content-type scenario: content type
`text/csv`, a schema present on the resource, default configuration:
no action, state unchanged. -/
theorem c7_skip_leaves_state_unchanged_witness :
    (mwDefault.handle_unexpected_content_types = false ∧
     mwDefault.content_is_expected_type mqZero reqCsv.content_type = false) ∧
    Marshmallow.process_resource mwDefault mqZero reqCsv resourceRaisingLoad
      stEmptyCtx = (none, stEmptyCtx) := by
  refine ⟨⟨rfl, rfl⟩, ?_⟩
  exact c7_skip_leaves_state_unchanged mwDefault mqZero reqCsv
    resourceRaisingLoad stEmptyCtx (Or.inr (Or.inr ⟨rfl, rfl⟩))

/-- C8: on both paths, a resolved schema value that is not an
instantiated schema object makes the transcoder raise the `TypeError`
before any body read (the inbound state is returned untouched, so the
stream is not consumed); that error is a different constructor from
every HTTP-classified client or server error condition. -/
theorem c8_uninstantiated_schema_type_error (mw : Marshmallow)
    (mq : String → String → Option Rat) (req : Request)
    (resource : Resource) (st : ReqState) (respBody : Option String)
    (result : Val) (n : Nat)
    (hlen : req.content_length = some (n + 1))
    (hct : mw.content_is_expected_type mq req.content_type = true)
    (hreq : Marshmallow.get_schema resource req.method "request"
      = some ResAttr.notSchema)
    (hres : st.context mw.resp_key = some result)
    (hresp : Marshmallow.get_schema resource req.method "response"
      = some ResAttr.notSchema) :
    Marshmallow.process_resource mw mq req resource st =
      (some (Err.typeError schemaTypeErrorMsg), st) ∧
    Marshmallow.process_response mw req resource st respBody =
      (some (Err.typeError schemaTypeErrorMsg), respBody) ∧
    (∀ d, Err.typeError schemaTypeErrorMsg ≠ Err.badRequest d ∧
      Err.typeError schemaTypeErrorMsg ≠ Err.unprocessableEntity d ∧
      Err.typeError schemaTypeErrorMsg ≠ Err.unsupportedMediaType d ∧
      Err.typeError schemaTypeErrorMsg ≠ Err.notAcceptable d ∧
      ∀ t, Err.typeError schemaTypeErrorMsg ≠ Err.internalServerError t d) := by
  refine ⟨?_, ?_, ?_⟩
  · have hne : ¬(req.content_length = none ∨ req.content_length = some 0) := by
      rw [hlen]
      simp
    have hne2 : ¬(mw.handle_unexpected_content_types = false ∧
        mw.content_is_expected_type mq req.content_type = false) := by
      simp [hct]
    simp [Marshmallow.process_resource, if_neg hne, if_neg hne2, hreq]
  · simp [Marshmallow.process_response, hres, hresp]
  · intro d
    refine ⟨?_, ?_, ?_, ?_, fun t => ?_⟩ <;> intro hcontra <;> cases hcontra

/-- A resource whose generic `schema` attribute holds a value that is
not an instantiated schema (an uninstantiated class, say); both
directions resolve to it. -/
def resourceClassSchema : Resource := fun name =>
  if name = "schema" then some ResAttr.notSchema else none

/-- Request state with a stored result under the default outbound key
and an unread two-byte stream. -/
def stC8 : ReqState where
  context := fun k => if k = "result" then some Val.null else none
  stream := [123, 125]
  readCount := 0

/-- Witness for C8 on the concrete uninstantiated-schema resource. -/
theorem c8_uninstantiated_schema_type_error_witness :
    reqPostJson.content_length = some (1 + 1) ∧
    mwDefault.content_is_expected_type mqUnused reqPostJson.content_type
      = true ∧
    Marshmallow.get_schema resourceClassSchema reqPostJson.method "request"
      = some ResAttr.notSchema ∧
    stC8.context mwDefault.resp_key = some Val.null ∧
    Marshmallow.process_resource mwDefault mqUnused reqPostJson
      resourceClassSchema stC8 =
      (some (Err.typeError schemaTypeErrorMsg), stC8) ∧
    Marshmallow.process_response mwDefault reqPostJson resourceClassSchema
      stC8 none = (some (Err.typeError schemaTypeErrorMsg), none) := by
  refine ⟨rfl, rfl, rfl, rfl, ?_, ?_⟩
  · exact (c8_uninstantiated_schema_type_error mwDefault mqUnused reqPostJson
      resourceClassSchema stC8 none Val.null 1 rfl rfl rfl rfl rfl).1
  · exact (c8_uninstantiated_schema_type_error mwDefault mqUnused reqPostJson
      resourceClassSchema stC8 none Val.null 1 rfl rfl rfl rfl rfl).2.1

/-- C9: a content-type string the mime-quality comparison rejects as
malformed (modelled by `mq` returning `none` where the real function
raises `ValueError`) makes the comparison return `false` rather than
propagate the error (the comparison is a total boolean function of the
content type, including the absent case), and so under the default
configuration the inbound transcoder skips the request, raising
nothing and leaving the state untouched. -/
theorem c9_unparsable_content_type_skipped (mw : Marshmallow)
    (mq : String → String → Option Rat) (req : Request)
    (resource : Resource) (st : ReqState) (ct : String)
    (hmw : mw.handle_unexpected_content_types = false)
    (hct : req.content_type = some ct)
    (hne : ¬ct = mw.expected_content_type)
    (hbad : mq ct mw.expected_content_type = none) :
    Marshmallow.content_is_expected_type mw mq req.content_type = false ∧
    Marshmallow.process_resource mw mq req resource st = (none, st) := by
  have h1 : Marshmallow.content_is_expected_type mw mq req.content_type
      = false := by
    unfold Marshmallow.content_is_expected_type
    rw [hct]
    rw [if_neg (by simp [hne])]
    simp [hbad]
  exact ⟨h1, process_resource_skip mw mq req resource st
    (Or.inr (Or.inr ⟨hmw, h1⟩))⟩

/-- A POST request whose content-type header is not a parsable MIME
type. -/
def reqBadCt : Request where
  method := "POST"
  client_accepts_json := true
  content_type := some "not a mime type"
  content_length := some 2

/-- Witness for C9: the unparsable content type is reported as
non-matching and the request is skipped with the state unchanged. -/
theorem c9_unparsable_content_type_skipped_witness :
    mwDefault.handle_unexpected_content_types = false ∧
    mqUnused "not a mime type" mwDefault.expected_content_type = none ∧
    Marshmallow.content_is_expected_type mwDefault mqUnused
      reqBadCt.content_type = false ∧
    Marshmallow.process_resource mwDefault mqUnused reqBadCt
      resourceRaisingLoad stEmptyCtx = (none, stEmptyCtx) := by
  refine ⟨rfl, rfl, ?_, ?_⟩
  · exact (c9_unparsable_content_type_skipped mwDefault mqUnused reqBadCt
      resourceRaisingLoad stEmptyCtx "not a mime type" rfl rfl
      (by decide) rfl).1
  · exact (c9_unparsable_content_type_skipped mwDefault mqUnused reqBadCt
      resourceRaisingLoad stEmptyCtx "not a mime type" rfl rfl
      (by decide) rfl).2

/-- C10: whenever the inbound transcoder raises any error, every
context key other than the reserved raw-body cache key is exactly as
it was before the call; in particular the inbound key (distinct from
the cache key in the default and any sane configuration) is never
written on a failing call. -/
theorem c10_no_inbound_write_on_error (mw : Marshmallow)
    (mq : String → String → Option Rat) (req : Request)
    (resource : Resource) (st : ReqState) (e : Err)
    (h : (Marshmallow.process_resource mw mq req resource st).1 = some e)
    (k : String) (hk : ¬k = CONTENT_KEY) :
    (Marshmallow.process_resource mw mq req resource st).2.context k
      = st.context k := by
  rcases hpr : Marshmallow.process_resource mw mq req resource st
    with ⟨err, st2⟩
  rw [hpr] at h
  unfold Marshmallow.process_resource at hpr
  repeat' split at hpr
  all_goals
    injection hpr with h1 h2
  all_goals
    subst h1
  all_goals
    subst h2
  all_goals
    first
      | exact Option.noConfusion h
      | exact stash_context_ne st k hk
      | rfl

/-- Witness for C10: a failing inbound call (the uninstantiated-schema
error) leaves the default inbound key untouched. -/
theorem c10_no_inbound_write_on_error_witness :
    (Marshmallow.process_resource mwDefault mqUnused reqPostJson
      resourceClassSchema stC8).1 = some (Err.typeError schemaTypeErrorMsg) ∧
    ¬("json" : String) = CONTENT_KEY ∧
    (Marshmallow.process_resource mwDefault mqUnused reqPostJson
      resourceClassSchema stC8).2.context "json" = stC8.context "json" := by
  refine ⟨rfl, by decide, ?_⟩
  exact c10_no_inbound_write_on_error mwDefault mqUnused reqPostJson
    resourceClassSchema stC8 (Err.typeError schemaTypeErrorMsg) rfl "json"
    (by decide)

end FalconMarshmallow
